import Mathlib

/-!
Verification of the date/sequence derivation and validation engine of the
ms-barcode repository (`star_barcode.py`).

The embedding models:
  * the ISO calendar conversion performed by Python's
    `datetime.date.isocalendar()` (the CPython algorithm over proleptic
    Gregorian ordinals: `_ymd2ord`, `_days_before_year`, `_days_before_month`,
    `_days_in_month`, `_isoweek1monday`, `isocalendar`);
  * `date_to_sequence_and_week`, `barcode_filename` and
    `construct_postscript` from `star_barcode.py`.

Machine integers are modelled as `Int`; Python's floor division and floor
modulus by a positive constant coincide with `Int`'s `/` and `%`
(Euclidean division), which is what is used throughout.  Python exceptions
are modelled by the `PyResult` type: `ValueError msg` and `IndexError msg`
carry the exception message.  Filesystem access (`Path.exists`,
`Path.resolve`) is abstracted by two function parameters `fs` and
`resolve`.  The regex `^\d{4}-\d{3,4}$` applied to the ISSN is embedded as
an explicit matcher over the string's characters (`\d` is taken as an
ASCII digit; all ISSNs in play are ASCII).
-/

namespace MsBarcode

/-- Leap-year test of the proleptic Gregorian calendar, as in CPython's
`datetime._is_leap`: divisible by 4 and (not by 100 or by 400). -/
def isLeap (y : Int) : Bool := decide (y % 4 = 0 ∧ (y % 100 ≠ 0 ∨ y % 400 = 0))

/-- Number of days before January 1 of `y`, as in CPython's
`datetime._days_before_year`: `(y-1)*365 + (y-1)//4 - (y-1)//100 + (y-1)//400`. -/
def daysBeforeYear (y : Int) : Int :=
  (y - 1) * 365 + (y - 1) / 4 - (y - 1) / 100 + (y - 1) / 400

/-- Number of days in month `month` of year `year`, as in CPython's
`datetime._days_in_month` (`_DAYS_IN_MONTH` table plus the February
leap-year case). -/
def daysInMonth (year month : Int) : Int :=
  if month = 2 then (if isLeap year then 29 else 28)
  else if month = 4 ∨ month = 6 ∨ month = 9 ∨ month = 11 then 30
  else 31

/-- CPython's `_DAYS_BEFORE_MONTH` table (cumulative month lengths of a
non-leap year), written as a case split on the month number. -/
def daysBeforeMonthBase (month : Int) : Int :=
  if month ≤ 1 then 0 else if month = 2 then 31 else if month = 3 then 59
  else if month = 4 then 90 else if month = 5 then 120 else if month = 6 then 151
  else if month = 7 then 181 else if month = 8 then 212 else if month = 9 then 243
  else if month = 10 then 273 else if month = 11 then 304 else 334

/-- Number of days in year `year` preceding the first of month `month`, as
in CPython's `datetime._days_before_month`. -/
def daysBeforeMonth (year month : Int) : Int :=
  daysBeforeMonthBase month + (if 2 < month ∧ isLeap year then 1 else 0)

/-- Proleptic Gregorian ordinal of a date (January 1 of year 1 is day 1),
as in CPython's `datetime._ymd2ord`. -/
def ymd2ord (year month day : Int) : Int :=
  daysBeforeYear year + daysBeforeMonth year month + day

/-- A Gregorian calendar date, the `CalendarDate` of the data model
(Python `datetime.date`). -/
structure MDate where
  year : Int
  month : Int
  day : Int
deriving DecidableEq, Repr

/-- The constraints `datetime.date` enforces on construction:
`MINYEAR = 1`, `MAXYEAR = 9999`, month in 1..12, day in 1..days-in-month. -/
def MDate.Valid (dt : MDate) : Prop :=
  1 ≤ dt.year ∧ dt.year ≤ 9999 ∧ 1 ≤ dt.month ∧ dt.month ≤ 12 ∧
    1 ≤ dt.day ∧ dt.day ≤ daysInMonth dt.year dt.month

instance (dt : MDate) : Decidable dt.Valid :=
  inferInstanceAs (Decidable (1 ≤ dt.year ∧ dt.year ≤ 9999 ∧ 1 ≤ dt.month ∧
    dt.month ≤ 12 ∧ 1 ≤ dt.day ∧ dt.day ≤ daysInMonth dt.year dt.month))

/-- The proleptic Gregorian ordinal of a date (`date.toordinal()`). -/
def MDate.toOrdinal (dt : MDate) : Int := ymd2ord dt.year dt.month dt.day

/-- The Monday starting ISO week 1 of `year`, as an ordinal; CPython's
`datetime._isoweek1monday` (with `THURSDAY = 3`). -/
def isoweek1monday (year : Int) : Int :=
  if (daysBeforeYear year + 1 + 6) % 7 > 3 then
    daysBeforeYear year + 1 - (daysBeforeYear year + 1 + 6) % 7 + 7
  else
    daysBeforeYear year + 1 - (daysBeforeYear year + 1 + 6) % 7

/-- CPython's `date.isocalendar()` on a date of Gregorian year `year` and
ordinal `n`: returns `(iso_year, iso_week, iso_weekday)`.  The three
branches are: date before week 1 of `year` (belongs to the previous ISO
year); date at computed week index ≥ 52 that already lies in week 1 of
`year + 1`; ordinary case. -/
def isocalendar (year n : Int) : Int × Int × Int :=
  if (n - isoweek1monday year) / 7 < 0 then
    (year - 1, (n - isoweek1monday (year - 1)) / 7 + 1,
      (n - isoweek1monday (year - 1)) % 7 + 1)
  else if (n - isoweek1monday year) / 7 ≥ 52 ∧ n ≥ isoweek1monday (year + 1) then
    (year + 1, 1, (n - isoweek1monday year) % 7 + 1)
  else
    (year, (n - isoweek1monday year) / 7 + 1, (n - isoweek1monday year) % 7 + 1)

/-- `date.isocalendar()` of an `MDate`; this is the `gregorianToIso`
conversion of the spec. -/
def MDate.isocal (dt : MDate) : Int × Int × Int := isocalendar dt.year dt.toOrdinal

/-- ISO week-numbering year of a date (`date.isocalendar()[0]`, strftime `%G`). -/
def MDate.isoYear (dt : MDate) : Int := dt.isocal.1

/-- ISO week number of a date (`date.isocalendar()[1]`, strftime `%V`). -/
def MDate.isoWeek (dt : MDate) : Int := dt.isocal.2.1

/-- ISO weekday of a date, Monday = 1 .. Sunday = 7
(`date.isocalendar()[2]`, strftime `%u`). -/
def MDate.isoWeekday (dt : MDate) : Int := dt.isocal.2.2

/-- Modelled from the spec: `isoYearStart(isoYear)` of the ISO Calendar
Converter component, which is not present in `src/` (the repository relies
on Python's `datetime`).  Per the spec it is the Gregorian date of the
Monday starting ISO week 1: January 4 of `isoYear` minus
(that date's ISO weekday − 1) days.  Represented as an ordinal; the ISO
weekday of ordinal `n` is `(n + 6) % 7 + 1`. -/
def isoYearStart (isoYear : Int) : Int :=
  (daysBeforeYear isoYear + 4) - (((daysBeforeYear isoYear + 4 + 6) % 7 + 1) - 1)

/-- Modelled from the spec: `isoToGregorian(isoYear, isoWeek, isoWeekday)`
of the ISO Calendar Converter component, which is not present in `src/`.
Per the spec: `isoYearStart(isoYear) + (isoWeek-1) weeks + (isoWeekday-1)
days`, here as ordinal arithmetic. -/
def isoToGregorianOrd (t : Int × Int × Int) : Int :=
  isoYearStart t.1 + (t.2.1 - 1) * 7 + (t.2.2 - 1)

/-- A Python exception as raised by the embedded functions: the constructor
is the exception class, the field its message. -/
inductive PyExc where
  | valueError (msg : String)
  | indexError (msg : String)
deriving DecidableEq, Repr

/-- Result of a Python call: a value, or a raised exception. -/
inductive PyResult (α : Type) where
  | ok (val : α)
  | error (e : PyExc)
deriving DecidableEq, Repr

/-- Whether a call returned normally. -/
def PyResult.isOk {α : Type} : PyResult α → Bool
  | .ok _ => true
  | .error _ => false

/-- Python's `'{0:02}'.format(n)`-style zero padding to a minimum width:
wider values are kept whole. -/
def padZero (width : Nat) (s : String) : String :=
  if s.length ≥ width then s
  else String.mk (List.replicate (width - s.length) '0') ++ s

/-- Message of the `ValueError` raised by `barcode_filename`
(`star_barcode.py` lines 66-67). -/
def mismatchMessage (day seq : Int) : String :=
  "Sequence weekday does not match date: day " ++ toString day ++
    " & seq " ++ toString seq

/-- `barcode_filename` from `star_barcode.py` (lines 47-71): raises
`ValueError` when `sequence % 10 != date.isocalendar()[2]`, otherwise
formats `'Barcode_{d:%G}-W{d:%V}-{d:%u}_{seq:02}.pdf'`.  `%G` is the ISO
year (4 digits for all years in the supported range), `%V` the
zero-padded ISO week, `%u` the one-digit ISO weekday. -/
def barcode_filename (date : MDate) (sequence : Int) : PyResult String :=
  if sequence % 10 ≠ date.isoWeekday then
    .error (.valueError (mismatchMessage date.isoWeekday sequence))
  else
    .ok ("Barcode_" ++ padZero 4 (toString date.isoYear) ++ "-W" ++
      padZero 2 (toString date.isoWeek) ++ "-" ++ toString date.isoWeekday ++
      "_" ++ padZero 2 (toString sequence) ++ ".pdf")

/-- `date_to_sequence_and_week` from `star_barcode.py` (lines 74-108):
`sequence = price_codes[iso_weekday - 1] * 10 + iso_weekday`, returned with
the ISO week; a too-short list raises Python's `IndexError`. -/
def date_to_sequence_and_week (date : MDate) (price_codes : List Int) :
    PyResult (Int × Int) :=
  match price_codes[(date.isoWeekday - 1).toNat]? with
  | none => .error (.indexError "list index out of range")
  | some pc => .ok (pc * 10 + date.isoWeekday, date.isoWeek)

/-- Matcher for `re.match(r'^\d{4}-\d{3,4}$', issn)` from
`star_barcode.py` line 142: four digits, a hyphen, then three or four
digits. -/
def issnMatch (issn : String) : Bool :=
  match issn.data with
  | a :: b :: c :: d :: '-' :: rest =>
      a.isDigit && b.isDigit && c.isDigit && d.isDigit &&
        (rest.length = 3 || rest.length = 4) && rest.all Char.isDigit
  | _ => false

/-- The part of the PostScript template of `construct_postscript`
(`star_barcode.py` lines 120-136) that precedes the header line. -/
def ps_head (bwipp issn : String) (seq week : Int) : String :=
  "%!PS\n(" ++ bwipp ++ ") run\n\n11 5 moveto (" ++ issn ++ " " ++
    padZero 2 (toString seq) ++ " " ++ padZero 2 (toString week) ++
    ") (includetext height=1.07) /issn /uk.co.terryburton.bwipp findresource exec\n\n" ++
    "% Print header line(s)\n/Courier findfont\n9 scalefont\nsetfont\n\n" ++
    "newpath\n11 86 moveto\n("

/-- The fully formatted PostScript text returned by `construct_postscript`
after all validation passes: the template with the resolved BWIPP
location, the ISSN, the zero-padded sequence and week, and the header
line substituted in. -/
def postscript_text (bwipp issn : String) (seq week : Int) (header : String) : String :=
  ps_head bwipp issn seq week ++ header ++ ") show\n\nshowpage\n"

/-- `construct_postscript` from `star_barcode.py` (lines 111-159).
`fs` abstracts `Path.exists` and `resolve` abstracts `Path.resolve`; the
four `if not ...: raise ValueError(...)` checks are in source order, and
the messages are the source's `.format`ted strings. -/
def construct_postscript (fs : String → Bool) (resolve : String → String)
    (bwipp_location issn : String) (sequence week : Int) (header_line : String) :
    PyResult String :=
  if fs bwipp_location = false then
    .error (.valueError "BWIPP location is incorrect")
  else if issnMatch issn = false then
    .error (.valueError ("ISSN " ++ issn ++ " is in incorrect format"))
  else if ¬(0 ≤ sequence ∧ sequence ≤ 99) then
    .error (.valueError ("Sequence " ++ toString sequence ++ " is outside of range 0-99"))
  else if ¬(0 < week ∧ week < 54) then
    .error (.valueError ("Week " ++ toString week ++
      " is not a valid ISO week. Must be between 1 and 53"))
  else
    .ok (postscript_text (resolve bwipp_location) issn sequence week header_line)

/-! ### Helper lemmas about the calendar arithmetic -/

theorem dby_succ (y : Int) :
    daysBeforeYear (y + 1) = daysBeforeYear y + 365 + (if isLeap y then 1 else 0) := by
  simp only [daysBeforeYear, isLeap, decide_eq_true_eq]
  split_ifs with h <;> omega

theorem dby_le (y : Int) : ∀ y' : Int, y ≤ y' → daysBeforeYear y ≤ daysBeforeYear y' :=
  Int.le_induction (le_refl _)
    (fun n _ ih => by have := dby_succ n; split_ifs at this <;> omega)

theorem dim_ge (y m : Int) : 28 ≤ daysInMonth y m := by
  simp only [daysInMonth]
  split_ifs <;> omega

theorem dbm_add_dim (y m : Int) (h1 : 1 ≤ m) (h2 : m ≤ 11) :
    daysBeforeMonth y m + daysInMonth y m = daysBeforeMonth y (m + 1) := by
  cases hl : isLeap y <;> interval_cases m <;>
    norm_num [daysBeforeMonth, daysBeforeMonthBase, daysInMonth, hl]

theorem dbm_one (y : Int) : daysBeforeMonth y 1 = 0 := by
  norm_num [daysBeforeMonth, daysBeforeMonthBase]

theorem dbm_twelve (y : Int) :
    daysBeforeMonth y 12 + daysInMonth y 12 = 365 + (if isLeap y then 1 else 0) := by
  cases hl : isLeap y <;>
    norm_num [daysBeforeMonth, daysBeforeMonthBase, daysInMonth, hl]

theorem dbm_le (y m1 : Int) (h1 : 1 ≤ m1) :
    ∀ m2 : Int, m1 ≤ m2 → m2 ≤ 12 → daysBeforeMonth y m1 ≤ daysBeforeMonth y m2 :=
  Int.le_induction (fun _ => le_refl _)
    (fun n hn ih h12 => by
      have ha := dbm_add_dim y n (by omega) (by omega)
      have hd := dim_ge y n
      have := ih (by omega)
      omega)

theorem day_of_year_bounds (dt : MDate) (h : dt.Valid) :
    1 ≤ daysBeforeMonth dt.year dt.month + dt.day ∧
      daysBeforeMonth dt.year dt.month + dt.day ≤
        365 + (if isLeap dt.year then 1 else 0) := by
  obtain ⟨_, _, hm1, hm2, hd1, hd2⟩ := h
  have hlow := dbm_le dt.year 1 (le_refl _) dt.month hm1 hm2
  rw [dbm_one] at hlow
  have h12 := dbm_twelve dt.year
  rcases eq_or_lt_of_le hm2 with heq | hlt
  · rw [heq] at hlow hd2 ⊢
    split_ifs at h12 ⊢ <;> omega
  · have ha := dbm_add_dim dt.year dt.month hm1 (by omega)
    have hb := dbm_le dt.year (dt.month + 1) (by omega) 12 (by omega) (by omega)
    have hc := dim_ge dt.year 12
    split_ifs at h12 ⊢ <;> omega

theorem ordinal_in_year (dt : MDate) (h : dt.Valid) :
    daysBeforeYear dt.year < dt.toOrdinal ∧
      dt.toOrdinal ≤ daysBeforeYear (dt.year + 1) := by
  have hb := day_of_year_bounds dt h
  have hs := dby_succ dt.year
  simp only [MDate.toOrdinal, ymd2ord]
  split_ifs at hb hs <;> omega

theorem month_day_inj (y m1 d1 m2 d2 : Int)
    (hm1 : 1 ≤ m1) (hm2 : m1 ≤ 12) (hd1 : 1 ≤ d1) (hd2 : d1 ≤ daysInMonth y m1)
    (hm1' : 1 ≤ m2) (hm2' : m2 ≤ 12) (hd1' : 1 ≤ d2) (hd2' : d2 ≤ daysInMonth y m2)
    (h : daysBeforeMonth y m1 + d1 = daysBeforeMonth y m2 + d2) :
    m1 = m2 ∧ d1 = d2 := by
  have key : ∀ ma da mb db : Int, 1 ≤ ma → 1 ≤ da → da ≤ daysInMonth y ma →
      1 ≤ db → ma < mb → mb ≤ 12 →
      daysBeforeMonth y ma + da < daysBeforeMonth y mb + db := by
    intro ma da mb db h1 h3 h4 h5 hlt hub
    have ha := dbm_add_dim y ma (by omega) (by omega)
    have hb := dbm_le y (ma + 1) (by omega) mb (by omega) hub
    omega
  rcases lt_trichotomy m1 m2 with hlt | heq | hgt
  · have := key m1 d1 m2 d2 hm1 hd1 hd2 hd1' hlt hm2'
    omega
  · subst heq
    exact ⟨rfl, by omega⟩
  · have := key m2 d2 m1 d1 hm1' hd1' hd2' hd1 hgt hm2
    omega

theorem toOrdinal_inj (d1 d2 : MDate) (h1 : d1.Valid) (h2 : d2.Valid)
    (h : d1.toOrdinal = d2.toOrdinal) : d1 = d2 := by
  have hy : d1.year = d2.year := by
    rcases lt_trichotomy d1.year d2.year with hlt | heq | hgt
    · have hle := dby_le (d1.year + 1) d2.year (by omega)
      have b1 := ordinal_in_year d1 h1
      have b2 := ordinal_in_year d2 h2
      omega
    · exact heq
    · have hle := dby_le (d2.year + 1) d1.year (by omega)
      have b1 := ordinal_in_year d1 h1
      have b2 := ordinal_in_year d2 h2
      omega
  obtain ⟨_, _, hm1, hm2, hd1, hd2⟩ := h1
  obtain ⟨_, _, hm1', hm2', hd1', hd2'⟩ := h2
  simp only [MDate.toOrdinal, ymd2ord, hy] at h
  rw [hy] at hd2
  have hmd := month_day_inj d2.year d1.month d1.day d2.month d2.day
    hm1 hm2 hd1 hd2 hm1' hm2' hd1' hd2' (by omega)
  obtain ⟨hm, hd⟩ := hmd
  cases d1; cases d2
  simp_all

theorem isoYearStart_eq_isoweek1monday (y : Int) :
    isoYearStart y = isoweek1monday y := by
  simp only [isoYearStart, isoweek1monday]
  split_ifs with h <;> omega

theorem roundtrip_ord (year n : Int) (hub : n ≤ daysBeforeYear (year + 1)) :
    isoToGregorianOrd (isocalendar year n) = n := by
  simp only [isocalendar]
  split_ifs with h1 h2 <;>
    simp only [isoToGregorianOrd, isoYearStart_eq_isoweek1monday] <;>
    simp only [isoweek1monday, daysBeforeYear] at * <;>
    split_ifs at * <;> omega

theorem isoWeekday_range (dt : MDate) : 1 ≤ dt.isoWeekday ∧ dt.isoWeekday ≤ 7 := by
  show 1 ≤ (isocalendar dt.year dt.toOrdinal).2.2 ∧
    (isocalendar dt.year dt.toOrdinal).2.2 ≤ 7
  simp only [isocalendar]
  split_ifs <;> dsimp only <;> omega

/-! ### Claim theorems -/

/-- C1: for every date and every price-code table whose length is at least
the date's ISO weekday, `date_to_sequence_and_week` returns
`(table[isoWeekday - 1] * 10 + isoWeekday, isoWeek)`; when the table is
shorter than the ISO weekday it raises the out-of-range lookup error
(Python's `IndexError`) instead of returning. -/
theorem date_to_sequence_and_week_spec (dt : MDate) (pcs : List Int) :
    (dt.isoWeekday ≤ (pcs.length : Int) →
      date_to_sequence_and_week dt pcs =
        .ok (pcs.getD (dt.isoWeekday - 1).toNat 0 * 10 + dt.isoWeekday, dt.isoWeek)) ∧
    ((pcs.length : Int) < dt.isoWeekday →
      date_to_sequence_and_week dt pcs =
        .error (.indexError "list index out of range")) := by
  have hr := isoWeekday_range dt
  constructor
  · intro hle
    have hidx : (dt.isoWeekday - 1).toNat < pcs.length := by omega
    rcases hg : pcs[(dt.isoWeekday - 1).toNat]? with _ | pc
    · rw [List.getElem?_eq_none_iff] at hg
      omega
    · have hgd : pcs.getD (dt.isoWeekday - 1).toNat 0 = pc := by
        simp only [List.getD, List.get?_eq_getElem?, hg, Option.getD_some]
      rw [date_to_sequence_and_week, hg, hgd]
  · intro hlt
    have hg : pcs[(dt.isoWeekday - 1).toNat]? = none := by
      rw [List.getElem?_eq_none_iff]
      omega
    rw [date_to_sequence_and_week, hg]

theorem date_to_sequence_and_week_spec_witness :
    date_to_sequence_and_week (MDate.mk 2016 11 15) [2, 2, 2, 2, 2, 3, 2] =
      .ok ([2, 2, 2, 2, 2, 3, 2].getD
        ((MDate.mk 2016 11 15).isoWeekday - 1).toNat 0 * 10 +
        (MDate.mk 2016 11 15).isoWeekday, (MDate.mk 2016 11 15).isoWeek) ∧
    date_to_sequence_and_week (MDate.mk 2017 1 1) [2, 2] =
      .error (.indexError "list index out of range") :=
  ⟨(date_to_sequence_and_week_spec (MDate.mk 2016 11 15)
      [2, 2, 2, 2, 2, 3, 2]).1 (by decide),
   (date_to_sequence_and_week_spec (MDate.mk 2017 1 1) [2, 2]).2 (by decide)⟩

/-- C2: for every date and every sequence whose last digit matches the
date's ISO weekday, `barcode_filename` formats
`Barcode_{isoYear}-W{isoWeek:02}-{isoWeekday}_{sequence:02}.pdf` with the
ISO week-numbering year; and at the year boundary,
`barcode_filename(2017-01-01, 27)` yields `Barcode_2016-W52-7_27.pdf`
(ISO year 2016, not Gregorian year 2017). -/
theorem barcode_filename_format (dt : MDate) (seq : Int)
    (h : seq % 10 = dt.isoWeekday) :
    barcode_filename dt seq =
      .ok ("Barcode_" ++ padZero 4 (toString dt.isoYear) ++ "-W" ++
        padZero 2 (toString dt.isoWeek) ++ "-" ++ toString dt.isoWeekday ++
        "_" ++ padZero 2 (toString seq) ++ ".pdf") ∧
    barcode_filename (MDate.mk 2017 1 1) 27 = .ok "Barcode_2016-W52-7_27.pdf" := by
  constructor
  · simp [barcode_filename, h]
  · decide

theorem barcode_filename_format_witness :
    barcode_filename (MDate.mk 2017 1 1) 27 =
      .ok ("Barcode_" ++ padZero 4 (toString (MDate.mk 2017 1 1).isoYear) ++ "-W" ++
        padZero 2 (toString (MDate.mk 2017 1 1).isoWeek) ++ "-" ++
        toString (MDate.mk 2017 1 1).isoWeekday ++
        "_" ++ padZero 2 (toString (27 : Int)) ++ ".pdf") ∧
    barcode_filename (MDate.mk 2017 1 1) 27 = .ok "Barcode_2016-W52-7_27.pdf" :=
  barcode_filename_format (MDate.mk 2017 1 1) 27 (by decide)

/-- C3: `barcode_filename` raises the mismatch `ValueError` exactly when
`sequence % 10` differs from the date's ISO weekday; concretely,
`barcode_filename(2016-11-12, 36)` is `Barcode_2016-W45-6_36.pdf` while
`barcode_filename(2016-11-12, 31)` raises the mismatch error. -/
theorem barcode_filename_mismatch_iff (dt : MDate) (seq : Int) :
    (barcode_filename dt seq =
        .error (.valueError (mismatchMessage dt.isoWeekday seq)) ↔
      seq % 10 ≠ dt.isoWeekday) ∧
    barcode_filename (MDate.mk 2016 11 12) 36 = .ok "Barcode_2016-W45-6_36.pdf" ∧
    barcode_filename (MDate.mk 2016 11 12) 31 =
      .error (.valueError (mismatchMessage 6 31)) := by
  refine ⟨?_, by decide, by decide⟩
  by_cases hc : seq % 10 = dt.isoWeekday <;> simp [barcode_filename, hc]

/-- C5: for every valid date, converting to the ISO triple with
`isocalendar` (the spec's `gregorianToIso`) and back with the
spec-modelled `isoToGregorian` yields the same date: the ordinals agree,
and no other valid date shares that ordinal. -/
theorem gregorian_iso_roundtrip (dt : MDate) (h : dt.Valid) :
    isoToGregorianOrd dt.isocal = dt.toOrdinal ∧
      ∀ dt2 : MDate, dt2.Valid → isoToGregorianOrd dt.isocal = dt2.toOrdinal →
        dt2 = dt := by
  have hb := ordinal_in_year dt h
  have h1 : isoToGregorianOrd dt.isocal = dt.toOrdinal :=
    roundtrip_ord dt.year dt.toOrdinal hb.2
  exact ⟨h1, fun dt2 h2 he => toOrdinal_inj dt2 dt h2 h (by omega)⟩

theorem gregorian_iso_roundtrip_witness :
    isoToGregorianOrd (MDate.mk 2017 1 1).isocal = (MDate.mk 2017 1 1).toOrdinal :=
  (gregorian_iso_roundtrip (MDate.mk 2017 1 1) (by decide)).1

/-- C6: whenever `date_to_sequence_and_week` returns a sequence, its units
digit equals the date's ISO weekday, so feeding the date and derived
sequence to `barcode_filename` never raises the mismatch error. -/
theorem derived_sequence_consistent (dt : MDate) (pcs : List Int) (seq wk : Int)
    (h : date_to_sequence_and_week dt pcs = .ok (seq, wk)) :
    seq % 10 = dt.isoWeekday ∧ (barcode_filename dt seq).isOk = true := by
  have hr := isoWeekday_range dt
  rcases hg : pcs[(dt.isoWeekday - 1).toNat]? with _ | pc <;>
    rw [date_to_sequence_and_week, hg] at h
  · exact absurd h (by simp)
  · have hseq : pc * 10 + dt.isoWeekday = seq := by
      have := congrArg (fun r => match r with
        | PyResult.ok (v : Int × Int) => v.1
        | PyResult.error _ => 0) h
      simpa using this
    have hmod : seq % 10 = dt.isoWeekday := by omega
    refine ⟨hmod, ?_⟩
    simp [barcode_filename, hmod, PyResult.isOk]

theorem derived_sequence_consistent_witness :
    (22 : Int) % 10 = (MDate.mk 2016 11 15).isoWeekday ∧
      (barcode_filename (MDate.mk 2016 11 15) 22).isOk = true :=
  derived_sequence_consistent (MDate.mk 2016 11 15) [2, 2, 2, 2, 2, 3, 2] 22 46
    (by decide)

/-- C4: with an existing BWIPP location and a well-formed ISSN,
`construct_postscript` accepts every sequence in 0..99 together with every
week in 1..53, and rejects sequence -1 and 100, week 0 and 54, and the
ISSN strings `0307-15` and `03071758`. -/
theorem construct_postscript_validation (fs : String → Bool)
    (resolve : String → String) (loc issn : String) (seq week : Int)
    (header : String) (hfs : fs loc = true) (hissn : issnMatch issn = true) :
    (0 ≤ seq → seq ≤ 99 → 1 ≤ week → week ≤ 53 →
      construct_postscript fs resolve loc issn seq week header =
        .ok (postscript_text (resolve loc) issn seq week header)) ∧
    construct_postscript fs resolve loc issn (-1) week header =
      .error (.valueError "Sequence -1 is outside of range 0-99") ∧
    construct_postscript fs resolve loc issn 100 week header =
      .error (.valueError "Sequence 100 is outside of range 0-99") ∧
    (0 ≤ seq → seq ≤ 99 →
      construct_postscript fs resolve loc issn seq 0 header =
        .error (.valueError "Week 0 is not a valid ISO week. Must be between 1 and 53")) ∧
    (0 ≤ seq → seq ≤ 99 →
      construct_postscript fs resolve loc issn seq 54 header =
        .error (.valueError "Week 54 is not a valid ISO week. Must be between 1 and 53")) ∧
    construct_postscript fs resolve loc "0307-15" seq week header =
      .error (.valueError "ISSN 0307-15 is in incorrect format") ∧
    construct_postscript fs resolve loc "03071758" seq week header =
      .error (.valueError "ISSN 03071758 is in incorrect format") := by
  refine ⟨?_, ?_, ?_, ?_, ?_, ?_, ?_⟩
  · intro h1 h2 h3 h4
    rw [construct_postscript, if_neg (by simp [hfs]), if_neg (by simp [hissn]),
      if_neg (by omega), if_neg (by omega)]
  · rw [construct_postscript, if_neg (by simp [hfs]), if_neg (by simp [hissn]),
      if_pos (by omega)]
    decide
  · rw [construct_postscript, if_neg (by simp [hfs]), if_neg (by simp [hissn]),
      if_pos (by omega)]
    decide
  · intro h1 h2
    rw [construct_postscript, if_neg (by simp [hfs]), if_neg (by simp [hissn]),
      if_neg (by omega), if_pos (by omega)]
    decide
  · intro h1 h2
    rw [construct_postscript, if_neg (by simp [hfs]), if_neg (by simp [hissn]),
      if_neg (by omega), if_pos (by omega)]
    decide
  · rw [construct_postscript, if_neg (by simp [hfs]), if_pos (by decide)]
    decide
  · rw [construct_postscript, if_neg (by simp [hfs]), if_pos (by decide)]
    decide

theorem construct_postscript_validation_witness :
    construct_postscript (fun _ => true) (fun s => s) "bwipp/barcode.ps"
      "0307-1758" 21 46 "MSTAR 2016-11-14 MON 1.0" =
      .ok (postscript_text "bwipp/barcode.ps" "0307-1758" 21 46
        "MSTAR 2016-11-14 MON 1.0") ∧
    construct_postscript (fun _ => true) (fun s => s) "bwipp/barcode.ps"
      "0307-1758" (-1) 46 "MSTAR 2016-11-14 MON 1.0" =
      .error (.valueError "Sequence -1 is outside of range 0-99") ∧
    construct_postscript (fun _ => true) (fun s => s) "bwipp/barcode.ps"
      "0307-1758" 100 46 "MSTAR 2016-11-14 MON 1.0" =
      .error (.valueError "Sequence 100 is outside of range 0-99") ∧
    construct_postscript (fun _ => true) (fun s => s) "bwipp/barcode.ps"
      "0307-1758" 21 0 "MSTAR 2016-11-14 MON 1.0" =
      .error (.valueError "Week 0 is not a valid ISO week. Must be between 1 and 53") ∧
    construct_postscript (fun _ => true) (fun s => s) "bwipp/barcode.ps"
      "0307-1758" 21 54 "MSTAR 2016-11-14 MON 1.0" =
      .error (.valueError "Week 54 is not a valid ISO week. Must be between 1 and 53") ∧
    construct_postscript (fun _ => true) (fun s => s) "bwipp/barcode.ps"
      "0307-15" 21 46 "MSTAR 2016-11-14 MON 1.0" =
      .error (.valueError "ISSN 0307-15 is in incorrect format") ∧
    construct_postscript (fun _ => true) (fun s => s) "bwipp/barcode.ps"
      "03071758" 21 46 "MSTAR 2016-11-14 MON 1.0" =
      .error (.valueError "ISSN 03071758 is in incorrect format") := by
  have h := construct_postscript_validation (fun _ => true) (fun s => s)
    "bwipp/barcode.ps" "0307-1758" 21 46 "MSTAR 2016-11-14 MON 1.0"
    rfl (by decide)
  exact ⟨h.1 (by decide) (by decide) (by decide) (by decide), h.2.1, h.2.2.1,
    h.2.2.2.1 (by decide) (by decide), h.2.2.2.2.1 (by decide) (by decide),
    h.2.2.2.2.2.1, h.2.2.2.2.2.2⟩

/-- C7 counterexample: when several parameters are invalid at once (missing
BWIPP location, malformed ISSN, out-of-range sequence and week), the
result is the single BWIPP `ValueError`; it is identical to the result
when every other parameter is valid, so the remaining checks are neither
performed nor reported, and the error raised is the same exception type
(`ValueError`) as the others, not a distinct one per check. -/
theorem construct_postscript_first_error_only :
    construct_postscript (fun _ => false) (fun s => s) "bwipp/barcode.ps"
      "03071758" (-1) 0 "HEADER" =
      .error (.valueError "BWIPP location is incorrect") ∧
    construct_postscript (fun _ => false) (fun s => s) "bwipp/barcode.ps"
      "0307-1758" 21 46 "HEADER" =
      .error (.valueError "BWIPP location is incorrect") ∧
    PyExc.valueError "BWIPP location is incorrect" ≠
      PyExc.valueError "ISSN 03071758 is in incorrect format" := by
  decide

/-- C7 amended: the four checks of `construct_postscript` run in source
order (BWIPP existence, ISSN format, sequence range, week range); the
first failing check raises a `ValueError` whose message identifies that
check, and the later checks are skipped — all four failures share the one
exception type `ValueError` and differ only in message. -/
theorem construct_postscript_checks_in_order (fs : String → Bool)
    (resolve : String → String) (loc issn : String) (seq week : Int)
    (header : String) :
    (fs loc = false →
      construct_postscript fs resolve loc issn seq week header =
        .error (.valueError "BWIPP location is incorrect")) ∧
    (fs loc = true → issnMatch issn = false →
      construct_postscript fs resolve loc issn seq week header =
        .error (.valueError ("ISSN " ++ issn ++ " is in incorrect format"))) ∧
    (fs loc = true → issnMatch issn = true → ¬(0 ≤ seq ∧ seq ≤ 99) →
      construct_postscript fs resolve loc issn seq week header =
        .error (.valueError ("Sequence " ++ toString seq ++
          " is outside of range 0-99"))) ∧
    (fs loc = true → issnMatch issn = true → (0 ≤ seq ∧ seq ≤ 99) →
      ¬(0 < week ∧ week < 54) →
      construct_postscript fs resolve loc issn seq week header =
        .error (.valueError ("Week " ++ toString week ++
          " is not a valid ISO week. Must be between 1 and 53"))) := by
  refine ⟨?_, ?_, ?_, ?_⟩
  · intro h
    rw [construct_postscript, if_pos h]
  · intro h1 h2
    rw [construct_postscript, if_neg (by simp [h1]), if_pos h2]
  · intro h1 h2 h3
    rw [construct_postscript, if_neg (by simp [h1]), if_neg (by simp [h2]),
      if_pos h3]
  · intro h1 h2 h3 h4
    rw [construct_postscript, if_neg (by simp [h1]), if_neg (by simp [h2]),
      if_neg (by simpa using h3), if_pos h4]

theorem construct_postscript_checks_in_order_witness :
    construct_postscript (fun _ => false) (fun s => s) "bwipp/barcode.ps"
      "0307-1758" 21 46 "H" =
      .error (.valueError "BWIPP location is incorrect") ∧
    construct_postscript (fun _ => true) (fun s => s) "bwipp/barcode.ps"
      "03071758" 21 46 "H" =
      .error (.valueError ("ISSN " ++ "03071758" ++ " is in incorrect format")) ∧
    construct_postscript (fun _ => true) (fun s => s) "bwipp/barcode.ps"
      "0307-1758" 100 46 "H" =
      .error (.valueError ("Sequence " ++ toString (100 : Int) ++
        " is outside of range 0-99")) ∧
    construct_postscript (fun _ => true) (fun s => s) "bwipp/barcode.ps"
      "0307-1758" 21 54 "H" =
      .error (.valueError ("Week " ++ toString (54 : Int) ++
        " is not a valid ISO week. Must be between 1 and 53")) :=
  ⟨(construct_postscript_checks_in_order (fun _ => false) (fun s => s)
      "bwipp/barcode.ps" "0307-1758" 21 46 "H").1 rfl,
   (construct_postscript_checks_in_order (fun _ => true) (fun s => s)
      "bwipp/barcode.ps" "03071758" 21 46 "H").2.1 rfl (by decide),
   (construct_postscript_checks_in_order (fun _ => true) (fun s => s)
      "bwipp/barcode.ps" "0307-1758" 100 46 "H").2.2.1 rfl (by decide)
      (by omega),
   (construct_postscript_checks_in_order (fun _ => true) (fun s => s)
      "bwipp/barcode.ps" "0307-1758" 21 54 "H").2.2.2 rfl (by decide)
      (by omega) (by omega)⟩

/-- C8 counterexample: the missing-dependency error of
`construct_postscript` has the fixed message `BWIPP location is
incorrect`, which does not contain the BWIPP location that was not
found. -/
theorem bwipp_error_message_omits_location :
    construct_postscript (fun _ => false) (fun s => s)
      "/missing/bwipp/barcode.ps" "0307-1758" 21 46 "HEADER" =
      .error (.valueError "BWIPP location is incorrect") ∧
    ¬ ("/missing/bwipp/barcode.ps".data <:+: "BWIPP location is incorrect".data) := by
  decide

/-- C8 amended: the ISSN, sequence and week validation errors of
`construct_postscript` each include the offending value in their message,
but the missing-dependency error carries the fixed message `BWIPP location
is incorrect`, which does not mention the BWIPP location. -/
theorem construct_postscript_error_messages (fs : String → Bool)
    (resolve : String → String) (loc issn : String) (seq week : Int)
    (header : String) :
    (fs loc = false →
      construct_postscript fs resolve loc issn seq week header =
        .error (.valueError "BWIPP location is incorrect")) ∧
    (fs loc = true → issnMatch issn = false →
      construct_postscript fs resolve loc issn seq week header =
        .error (.valueError ("ISSN " ++ issn ++ " is in incorrect format")) ∧
      issn.data <:+: ("ISSN " ++ issn ++ " is in incorrect format").data) ∧
    (fs loc = true → issnMatch issn = true → ¬(0 ≤ seq ∧ seq ≤ 99) →
      construct_postscript fs resolve loc issn seq week header =
        .error (.valueError ("Sequence " ++ toString seq ++
          " is outside of range 0-99")) ∧
      (toString seq).data <:+:
        ("Sequence " ++ toString seq ++ " is outside of range 0-99").data) ∧
    (fs loc = true → issnMatch issn = true → (0 ≤ seq ∧ seq ≤ 99) →
      ¬(0 < week ∧ week < 54) →
      construct_postscript fs resolve loc issn seq week header =
        .error (.valueError ("Week " ++ toString week ++
          " is not a valid ISO week. Must be between 1 and 53")) ∧
      (toString week).data <:+: ("Week " ++ toString week ++
        " is not a valid ISO week. Must be between 1 and 53").data) := by
  refine ⟨?_, ?_, ?_, ?_⟩
  · intro h
    rw [construct_postscript, if_pos h]
  · intro h1 h2
    refine ⟨by rw [construct_postscript, if_neg (by simp [h1]), if_pos h2], ?_⟩
    exact ⟨"ISSN ".data, " is in incorrect format".data, by simp⟩
  · intro h1 h2 h3
    refine ⟨by rw [construct_postscript, if_neg (by simp [h1]),
      if_neg (by simp [h2]), if_pos h3], ?_⟩
    exact ⟨"Sequence ".data, " is outside of range 0-99".data, by simp⟩
  · intro h1 h2 h3 h4
    refine ⟨by rw [construct_postscript, if_neg (by simp [h1]),
      if_neg (by simp [h2]), if_neg (by simpa using h3), if_pos h4], ?_⟩
    exact ⟨"Week ".data,
      " is not a valid ISO week. Must be between 1 and 53".data, by simp⟩

theorem construct_postscript_error_messages_witness :
    (construct_postscript (fun _ => false) (fun s => s) "bwipp/barcode.ps"
      "0307-1758" 21 46 "H" =
      .error (.valueError "BWIPP location is incorrect")) ∧
    (construct_postscript (fun _ => true) (fun s => s) "bwipp/barcode.ps"
      "03071758" 21 46 "H" =
      .error (.valueError ("ISSN " ++ "03071758" ++ " is in incorrect format")) ∧
      "03071758".data <:+: ("ISSN " ++ "03071758" ++ " is in incorrect format").data) ∧
    (construct_postscript (fun _ => true) (fun s => s) "bwipp/barcode.ps"
      "0307-1758" 100 46 "H" =
      .error (.valueError ("Sequence " ++ toString (100 : Int) ++
        " is outside of range 0-99")) ∧
      (toString (100 : Int)).data <:+:
        ("Sequence " ++ toString (100 : Int) ++ " is outside of range 0-99").data) ∧
    (construct_postscript (fun _ => true) (fun s => s) "bwipp/barcode.ps"
      "0307-1758" 21 54 "H" =
      .error (.valueError ("Week " ++ toString (54 : Int) ++
        " is not a valid ISO week. Must be between 1 and 53")) ∧
      (toString (54 : Int)).data <:+: ("Week " ++ toString (54 : Int) ++
        " is not a valid ISO week. Must be between 1 and 53").data) :=
  ⟨(construct_postscript_error_messages (fun _ => false) (fun s => s)
      "bwipp/barcode.ps" "0307-1758" 21 46 "H").1 rfl,
   (construct_postscript_error_messages (fun _ => true) (fun s => s)
      "bwipp/barcode.ps" "03071758" 21 46 "H").2.1 rfl (by decide),
   (construct_postscript_error_messages (fun _ => true) (fun s => s)
      "bwipp/barcode.ps" "0307-1758" 100 46 "H").2.2.1 rfl (by decide)
      (by omega),
   (construct_postscript_error_messages (fun _ => true) (fun s => s)
      "bwipp/barcode.ps" "0307-1758" 21 54 "H").2.2.2 rfl (by decide)
      (by omega) (by omega)⟩

/-- C9: `barcode_filename` imposes no range restriction on the sequence
beyond the weekday-digit match: sequence 106 (outside 0..99, units digit 6)
with the Saturday date 2016-11-12 succeeds and the sequence field of the
filename has three digits. -/
theorem barcode_filename_no_range_limit :
    barcode_filename (MDate.mk 2016 11 12) 106 =
      .ok "Barcode_2016-W45-6_106.pdf" ∧ (99 : Int) < 106 := by
  decide

/-- C10: `construct_postscript` places no constraint on the header line:
for every string (of any length), with the other parameters valid, the
call succeeds and the returned PostScript text contains the header line
verbatim. -/
theorem construct_postscript_header_verbatim (fs : String → Bool)
    (resolve : String → String) (loc issn : String) (seq week : Int)
    (header : String) (hfs : fs loc = true) (hissn : issnMatch issn = true)
    (hseq1 : 0 ≤ seq) (hseq2 : seq ≤ 99) (hweek1 : 1 ≤ week) (hweek2 : week ≤ 53) :
    construct_postscript fs resolve loc issn seq week header =
      .ok (postscript_text (resolve loc) issn seq week header) ∧
    header.data <:+: (postscript_text (resolve loc) issn seq week header).data := by
  constructor
  · rw [construct_postscript, if_neg (by simp [hfs]), if_neg (by simp [hissn]),
      if_neg (by omega), if_neg (by omega)]
  · exact ⟨(ps_head (resolve loc) issn seq week).data,
      ") show\n\nshowpage\n".data, by simp [postscript_text]⟩

theorem construct_postscript_header_verbatim_witness :
    construct_postscript (fun _ => true) (fun s => s) "bwipp/barcode.ps"
      "0307-1758" 21 46 ">>> THIS HEADER LINE IS LONGER THAN 24 CHARACTERS <<<" =
      .ok (postscript_text "bwipp/barcode.ps" "0307-1758" 21 46
        ">>> THIS HEADER LINE IS LONGER THAN 24 CHARACTERS <<<") ∧
    ">>> THIS HEADER LINE IS LONGER THAN 24 CHARACTERS <<<".data <:+:
      (postscript_text "bwipp/barcode.ps" "0307-1758" 21 46
        ">>> THIS HEADER LINE IS LONGER THAN 24 CHARACTERS <<<").data :=
  construct_postscript_header_verbatim (fun _ => true) (fun s => s)
    "bwipp/barcode.ps" "0307-1758" 21 46
    ">>> THIS HEADER LINE IS LONGER THAN 24 CHARACTERS <<<"
    rfl (by decide) (by omega) (by omega) (by omega) (by omega)

end MsBarcode
